import Mathlib

/-!
Verification development for the `graph_slam` pose-graph SLAM back-end
(`src/extended_sparse_optimizer.cpp`).  The optimizer driver is shallowly
embedded as a pure state machine.  External collaborators (the g2o solver,
the GICP aligner, Eigen's matrix inverse and vector norm, and the
Mahalanobis-distance helper, all of which live outside the translated
source file) are modelled as explicit oracle parameters; everything that
the source file itself computes is translated directly.

Real-valued scalars (C++ `double`) are modelled as rationals; the external
pose-with-uncertainty inputs use `Option ℚ` entries so that NaN (`none`)
can be represented.
-/

namespace GraphSlam

abbrev Vec3 := Fin 3 → ℚ
abbrev Mat3 := Matrix (Fin 3) (Fin 3) ℚ
abbrev Mat6 := Matrix (Fin 6) (Fin 6) ℚ

/-- Rigid transform (Eigen `Isometry3d`): a 3x3 linear part and a translation. -/
structure Pose where
  linear : Mat3
  trans : Vec3
deriving DecidableEq

/-- Identity transform (`Eigen::Isometry3d::Identity()`). -/
def Pose.id : Pose := ⟨1, 0⟩

/-- Composition of rigid transforms (`operator*` on isometries). -/
def Pose.comp (a b : Pose) : Pose :=
  ⟨a.linear * b.linear, a.linear.mulVec b.trans + a.trans⟩

/-- Inverse of a rigid transform; Eigen's `Isometry3d::inverse` uses the
transpose of the (orthogonal) linear part. -/
def Pose.inv (a : Pose) : Pose :=
  ⟨a.linear.transpose, -(a.linear.transpose.mulVec a.trans)⟩

theorem Pose.comp_assoc (a b c : Pose) :
    (a.comp b).comp c = a.comp (b.comp c) := by
  unfold Pose.comp
  refine congrArg₂ Pose.mk (Matrix.mul_assoc _ _ _) ?_
  simp [Matrix.mulVec_add, ← Matrix.mulVec_mulVec, add_assoc]

/-- Scalar of the external representation: `none` stands for NaN. -/
abbrev NScalar := Option ℚ

/-- External 6x6 covariance matrix as delivered by envire, entries possibly NaN. -/
abbrev NMat6 := Matrix (Fin 6) (Fin 6) NScalar

/-- External rigid-transform input, entries possibly NaN.  (The constant
bottom row of the homogeneous 4x4 matrix can never be NaN and is omitted.) -/
structure NPose where
  linear : Matrix (Fin 3) (Fin 3) NScalar
  trans : Fin 3 → NScalar

/-- Modelled from the spec: `is_nan` on a 6x6 matrix (declared in the
repository's matrix helper header, which is not part of the translated
source) holds when any entry is NaN. -/
def isNanMat6 (M : NMat6) : Bool :=
  decide (∃ i j, M i j = none)

/-- Modelled from the spec: `is_nan` on a pose matrix holds when any entry
of the linear part or the translation is NaN. -/
def NPose.isNan (p : NPose) : Bool :=
  decide ((∃ i j, p.linear i j = none) ∨ (∃ i, p.trans i = none))

/-- Extraction of the rational matrix once the NaN check has passed. -/
def deNanMat6 (M : NMat6) : Mat6 :=
  Matrix.of fun i j => (M i j).getD 0

/-- Extraction of the rational pose once the NaN check has passed. -/
def NPose.toPose (p : NPose) : Pose :=
  ⟨Matrix.of fun i j => (p.linear i j).getD 0, fun i => (p.trans i).getD 0⟩

/-- Index permutation swapping the two 3-blocks of `Fin 6`. -/
def swap6 (i : Fin 6) : Fin 6 := ⟨(i.val + 3) % 6, by omega⟩

/-- Modelled from the spec: `switchEnvireG2oCov` (declared in the repository's
matrix helper header, not part of the translated source) swaps the two 3x3
block rows and block columns, converting between the envire and g2o 6-DoF
covariance conventions. -/
def switchEnvireG2oCov {α : Type} (M : Matrix (Fin 6) (Fin 6) α) :
    Matrix (Fin 6) (Fin 6) α :=
  Matrix.of fun i j => M (swap6 i) (swap6 j)

theorem swap6_swap6 (i : Fin 6) : swap6 (swap6 i) = i := by
  fin_cases i <;> rfl

theorem isNanMat6_switch (M : NMat6) :
    isNanMat6 (switchEnvireG2oCov M) = isNanMat6 M := by
  unfold isNanMat6 switchEnvireG2oCov
  refine decide_eq_decide.mpr ?_
  constructor
  · rintro ⟨i, j, h⟩
    exact ⟨swap6 i, swap6 j, h⟩
  · rintro ⟨i, j, h⟩
    refine ⟨swap6 i, swap6 j, ?_⟩
    simpa [Matrix.of_apply, swap6_swap6] using h

/-- Top-left 3x3 block of a 6x6 matrix (`topLeftCorner<3,3>`). -/
def topLeft3 (M : Mat6) : Mat3 :=
  Matrix.of fun i j => M ⟨i.val, by omega⟩ ⟨j.val, by omega⟩

/-- Largest value of the C++ `int` vertex-id counter. -/
def intMax : Int := 2 ^ 31 - 1

/-- Modelled from the spec: an edge candidate stored on a vertex
(`VertexSE3_GICP::EdgeCandidate`, declared outside the translated source):
a Mahalanobis distance, an error driving priority selection, and a stale
flag.  The spec leaves the initial error unspecified; `addCandidate` below
initialises it with the candidate distance, a choice no claim depends on. -/
structure EdgeCandidate where
  mahalanobis_distance : ℚ
  error : ℚ
  stale : Bool
deriving DecidableEq

/-- Point cloud attached to a vertex (`envire::Pointcloud`): the measured
points and the sensor origin. -/
structure Cloud where
  points : List Vec3
  sensorOrigin : Pose
deriving DecidableEq

/-- Scene-graph frame node (`envire::FrameNode`): a transform and, once
refreshed with marginals, a covariance. -/
structure FrameNode where
  transform : Pose
  covariance : Option Mat6
deriving DecidableEq

/-- Pose vertex (`graph_slam::VertexSE3_GICP`).  The candidate map and the
edge-search state follow the spec's vertex model (the class is declared
outside the translated source); `handled` abstracts `isHandledByOptimizer`
and `hessianIndex` the g2o Hessian position used to index marginals. -/
structure Vertex where
  id : Int
  fixedFlag : Bool
  estimate : Pose
  cloud : Option Cloud
  framenode : Option FrameNode
  candidates : List (Int × EdgeCandidate)
  searchHasRun : Bool
  searchPose : Pose
  handled : Bool
  hessianIndex : Int
deriving DecidableEq

/-- Relative-pose edge (`graph_slam::EdgeSE3_GICP`): endpoints by vertex id,
measurement, information matrix, GICP validity flag and fitness score. -/
structure Edge where
  source : Int
  target : Int
  measurement : Pose
  information : Mat6
  gicpValid : Bool
  fitness : ℚ
deriving DecidableEq

/-- Edge of the shadow covariance graph (a plain `g2o::EdgeSE3`). -/
structure CovEdge where
  v0 : Int
  v1 : Int
  measurement : Pose
  information : Mat6
deriving DecidableEq

/-- Shadow covariance graph: vertices as (id, fixed) pairs plus edges. -/
structure CovGraph where
  vertices : List (Int × Bool)
  edges : List CovEdge
deriving DecidableEq

/-- Observable calls `optimize` makes on its collaborators, in program order. -/
inductive Event where
  | shadowMirror
  | shadowOptimize
  | primaryPrepare
  | primaryOptimize
  | gridInsert (vid : Int)
  | stagingClear
deriving DecidableEq

/-- Error kinds surfaced by the driver (the C++ code throws
`std::runtime_error`; the kinds follow the spec's taxonomy). -/
inductive Err where
  | overflow
  | badInput
  | gicpFail
  | optimizerInit
  | optimizerUpdate
deriving DecidableEq

instance {ε α : Type} [DecidableEq ε] [DecidableEq α] :
    DecidableEq (Except ε α) := fun a b =>
  match a, b with
  | .ok x, .ok y =>
      match decEq x y with
      | isTrue h => isTrue (h ▸ rfl)
      | isFalse h => isFalse fun hh => h (by cases hh; rfl)
  | .error x, .error y =>
      match decEq x y with
      | isTrue h => isTrue (h ▸ rfl)
      | isFalse h => isFalse fun hh => h (by cases hh; rfl)
  | .ok _, .error _ => isFalse fun hh => Except.noConfusion hh
  | .error _, .ok _ => isFalse fun hh => Except.noConfusion hh

/-- State of an `ExtendedSparseOptimizer` instance.  `vertices`/`edges` are
the primary graph, `activeVertices`/`activeEdges` the g2o active sets (ids
for vertices, since the C++ containers hold pointers into the graph),
`verticesToAdd`/`edgesToAdd` the staging sets, `covGraph` the shadow
covariance graph, `vertexGrid` the spatial grid contents and `mlsInputs`
the clouds registered with the MLS projection. -/
structure State where
  vertices : List Vertex
  edges : List Edge
  activeVertices : List Int
  activeEdges : List Edge
  nextVertexId : Int
  initialized : Bool
  odometryPoseLast : Pose
  odometryCovLast : Mat6
  lastVertex : Option Int
  newEdgesAdded : Bool
  useMls : Bool
  useVertexGrid : Bool
  mapUpdateNecessary : Bool
  verticesToAdd : List Int
  edgesToAdd : List Edge
  covGraph : CovGraph
  vertexGrid : List (Int × Vec3)
  mlsInputs : List Int
  gicpMaxSensorDistance : ℚ
  mlsProjectionVersion : Nat
deriving DecidableEq

/-- Placeholder vertex used to model dereferencing a pointer whose target is
guaranteed to exist (never observable on the paths the theorems cover). -/
def defaultVertex : Vertex :=
  ⟨0, false, Pose.id, none, none, [], false, Pose.id, false, -1⟩

/-- Vertex lookup by id (`OptimizableGraph::vertex(id)` / pointer deref). -/
def State.findVertex (st : State) (i : Int) : Option Vertex :=
  st.vertices.find? (fun v => v.id = i)

/-- Applies `f` to the vertex with id `i`, leaving the rest unchanged
(models a mutation through a vertex pointer). -/
def State.modifyVertex (st : State) (i : Int) (f : Vertex → Vertex) : State :=
  {st with vertices := st.vertices.map fun v => if v.id = i then f v else v}

/-- State after the constructor / `initValues` (`initValues()` plus a fresh
environment; the GICP configuration starts default-constructed, its
`max_sensor_distance` is taken as 0 here, no claim depends on it). -/
def initialState : State where
  vertices := []
  edges := []
  activeVertices := []
  activeEdges := []
  nextVertexId := 0
  initialized := false
  odometryPoseLast := Pose.id
  odometryCovLast := 1
  lastVertex := none
  newEdgesAdded := false
  useMls := false
  useVertexGrid := false
  mapUpdateNecessary := false
  verticesToAdd := []
  edgesToAdd := []
  covGraph := ⟨[], []⟩
  vertexGrid := []
  mlsInputs := []
  gicpMaxSensorDistance := 0
  mlsProjectionVersion := 0

/-- Modelled from the spec: `addEdgeCandidate(tid, distance)` stores the
candidate under the target id (replace-or-insert into the candidate map). -/
def addCandidate (cs : List (Int × EdgeCandidate)) (tid : Int) (d : ℚ) :
    List (Int × EdgeCandidate) :=
  (tid, ⟨d, d, false⟩) :: cs.filter (fun p => p.1 ≠ tid)

/-- Candidate map lookup by target id. -/
def lookupCandidate (cs : List (Int × EdgeCandidate)) (tid : Int) :
    Option EdgeCandidate :=
  (cs.find? (fun p => p.1 = tid)).map (·.2)

/-- Modelled from the spec: `removeEdgeCandidate(tid)`. -/
def removeCandidate (cs : List (Int × EdgeCandidate)) (tid : Int) :
    List (Int × EdgeCandidate) :=
  cs.filter (fun p => p.1 ≠ tid)

/-- Modelled from the spec: `updateEdgeCandidate(tid, stale)` marks the
candidate stale, keeping it. -/
def staleCandidate (cs : List (Int × EdgeCandidate)) (tid : Int) :
    List (Int × EdgeCandidate) :=
  cs.map fun p => if p.1 = tid then (p.1, {p.2 with stale := true}) else p

/-- Modelled from the spec: `getMissingEdgesError` is the sum of the
candidate errors. -/
def missingEdgesError (cs : List (Int × EdgeCandidate)) : ℚ :=
  (cs.map (·.2.error)).sum

/-- Modelled from the spec: `getBestEdgeCandidate` returns the candidate
with the highest error, ties broken towards the smaller target id. -/
def bestCandidate (cs : List (Int × EdgeCandidate)) :
    Option (Int × EdgeCandidate) :=
  cs.foldl (fun acc p =>
    match acc with
    | none => some p
    | some q =>
        if p.2.error > q.2.error ∨ (p.2.error = q.2.error ∧ p.1 < q.1) then
          some p
        else some q) none

/-- `getVertexCovariance` (source lines 552-565): fails unless the vertex is
handled by the optimizer and the marginal block at its Hessian index exists;
`spinv` abstracts the sparse block matrix, the out-of-range and the
missing-block case both map to `none`. -/
def getVertexCovariance (v : Vertex) (spinv : Int → Option Mat6) :
    Option Mat6 :=
  if v.handled then spinv v.hessianIndex else none

/-- Whether an edge connects the two given vertex ids (an edge is in both
endpoints' edge sets exactly when it joins them). -/
def connects (e : Edge) (a b : Int) : Bool :=
  (e.source = a && e.target = b) || (e.source = b && e.target = a)

/-- Mirror of a staged primary edge in the shadow covariance graph
(source lines 418-425): identity measurement, same information matrix,
endpoints resolved by vertex id. -/
def mirrorEdge (e : Edge) : CovEdge :=
  ⟨e.source, e.target, Pose.id, e.information⟩

/-- Sequential edge built by `addVertex` (source lines 150-163): measurement
is the odometry delta, information is `(I + ΔS)⁻¹` where
`ΔS = inverse(odometry_covariance_last) * covariance`.  `minv` abstracts
Eigen's (external) 6x6 matrix inverse. -/
def seqEdge (st : State) (odometryPose : Pose) (odometryCovariance : Mat6)
    (minv : Mat6 → Mat6) (lastId : Int) : Edge :=
  { source := lastId
    target := st.nextVertexId
    measurement := (Pose.inv st.odometryPoseLast).comp odometryPose
    information := minv (1 + minv st.odometryCovLast * odometryCovariance)
    gicpValid := false
    fitness := 0 }

/-- Tail of a successful `addVertex` (source lines 180-194): create the
frame node at the vertex estimate, register the cloud with the MLS
projection when enabled, stage the vertex, and update `odometry_pose_last`,
`odometry_covariance_last`, `last_vertex` and `next_vertex_id`. -/
def finishAdd (st : State) (vid : Int) (odometryPose : Pose)
    (odometryCovariance : Mat6) : State :=
  let est := ((st.findVertex vid).getD defaultVertex).estimate
  let st1 := st.modifyVertex vid fun v => {v with framenode := some ⟨est, none⟩}
  let st2 :=
    if st.useMls then {st1 with mlsInputs := st1.mlsInputs ++ [vid]} else st1
  { st2 with
    verticesToAdd := st2.verticesToAdd ++ [vid]
    odometryPoseLast := odometryPose
    odometryCovLast := odometryCovariance
    lastVertex := some vid
    nextVertexId := st.nextVertexId + 1 }

/-- `ExtendedSparseOptimizer::addVertex` (source lines 92-195).  Oracles:
`acceptVertex`/`acceptEdge` are the results of the external g2o
`addVertex`/`addEdge` calls, `gicpApply` is the external
`setMeasurementFromGICP` call (given the delayed flag and the edge as
built, it returns the success flag and the edge as left by the call), and
`minv` abstracts Eigen's matrix inverse.  A thrown `std::runtime_error` is
modelled as an `Except.error` paired with the state as mutated up to the
throw point. -/
def addVertex (st : State) (npose : NPose) (ncov : NMat6)
    (cloudPts : List Vec3) (sensorOrigin : Pose) (delayed : Bool)
    (acceptVertex : Bool) (acceptEdge : Bool)
    (gicpApply : Bool → Edge → Bool × Edge) (minv : Mat6 → Mat6) :
    Except Err Bool × State :=
  if st.nextVertexId = intMax then (.error .overflow, st)
  else if npose.isNan then (.error .badInput, st)
  else
    let ncovSwitched := switchEnvireG2oCov ncov
    if isNanMat6 ncovSwitched then (.error .badInput, st)
    else
      let odometryPose := npose.toPose
      let odometryCovariance := deNanMat6 ncovSwitched
      let vid := st.nextVertexId
      let vBase : Vertex :=
        { id := vid, fixedFlag := false, estimate := Pose.id,
          cloud := some ⟨cloudPts, sensorOrigin⟩, framenode := none,
          candidates := [], searchHasRun := false, searchPose := Pose.id,
          handled := false, hessianIndex := -1 }
      if ¬acceptVertex then (.ok false, st)
      else
        let stIn := {st with vertices := st.vertices ++ [vBase]}
        if vid = 0 ∨ st.lastVertex = none then
          let st1 := stIn.modifyVertex vid fun v =>
            {v with fixedFlag := true, estimate := odometryPose}
          let st2 := {st1 with mapUpdateNecessary := true}
          (.ok true, finishAdd st2 vid odometryPose odometryCovariance)
        else
          let lastId := st.lastVertex.getD 0
          let lastEstimate := ((stIn.findVertex lastId).getD defaultVertex).estimate
          let edge0 := seqEdge st odometryPose odometryCovariance minv lastId
          let st1 := stIn.modifyVertex vid fun v =>
            {v with estimate := lastEstimate.comp edge0.measurement}
          match gicpApply delayed edge0 with
          | (false, _) => (.error .gicpFail, st1)
          | (true, edge1) =>
              if ¬acceptEdge then
                (.ok false,
                 {st1 with vertices := st1.vertices.filter fun v => v.id ≠ vid})
              else
                let st2 := {st1 with edges := st1.edges ++ [edge1],
                                     edgesToAdd := st1.edgesToAdd ++ [edge1]}
                (.ok true, finishAdd st2 vid odometryPose odometryCovariance)

/-- `ExtendedSparseOptimizer::removePointcloudFromVertex` (source lines
209-227): detaches the cloud, removes it from the MLS projection when
enabled and destroys its frame node; succeeds only for an existing,
optimizer-handled vertex with an attached cloud.  The shadow covariance
graph is not touched. -/
def removePointcloudFromVertex (st : State) (vid : Int) : Bool × State :=
  match st.findVertex vid with
  | none => (false, st)
  | some v =>
      if v.handled ∧ v.cloud.isSome then
        let st1 := st.modifyVertex vid fun w =>
          {w with cloud := none, framenode := none}
        let st2 :=
          if st.useMls then {st1 with mlsInputs := st1.mlsInputs.filter (· ≠ vid)}
          else st1
        (true, st2)
      else (false, st)

/-- Vertex mutation performed by `addEdgeCandidate(t', d)`. -/
def addCandTo (t' : Int) (d : ℚ) (v : Vertex) : Vertex :=
  {v with candidates := addCandidate v.candidates t' d}

/-- Vertex mutation performed by `setEdgeSearchState(true, estimate)`
(source line 320). -/
def recordSearch (v : Vertex) : Vertex :=
  {v with searchHasRun := true, searchPose := v.estimate}

/-- Acceptance of a candidate pair (source lines 312-314): the symmetric
candidate with distance `d` is added to the source (`vid`) and the target
(`t'`) and `new_edges_added` is raised. -/
def candApply (vid t' : Int) (d : ℚ) (st : State) : State :=
  let st1 := st.modifyVertex vid (addCandTo t' d)
  let st2 := st1.modifyVertex t' (addCandTo vid d)
  {st2 with newEdgesAdded := true}

/-- Candidate distance computed at source lines 302-308: the Mahalanobis
distance of the two positions under the summed position covariance
(through the external `computeMahalanobisDistance` oracle `mahal`), the
Euclidean distance (through the external Eigen norm oracle `enorm`), and
the smaller of the two. -/
def candDistValue (mahal : Vec3 → Mat3 → Vec3 → ℚ) (enorm : Vec3 → ℚ)
    (srcCov tgtCov : Mat6) (sPose tPose : Pose) : ℚ :=
  let posCov := topLeft3 srcCov + topLeft3 tgtCov
  let m := mahal sPose.trans posCov tPose.trans
  let e := enorm (tPose.trans - sPose.trans)
  if m > e then e else m

/-- Body of the target loop of `findEdgeCandidates(vertex_id, spinv)`
(source lines 283-318): for one active vertex `tid`, gate on attached
cloud, id distance at least 2 and no existing edge, compute the candidate
distance from the current source and target estimates, and on passing the
sensor-distance gate add the symmetric candidate and raise
`new_edges_added`. -/
def candStep (vid : Int) (srcCov : Mat6) (spinv : Int → Option Mat6)
    (mahal : Vec3 → Mat3 → Vec3 → ℚ) (enorm : Vec3 → ℚ)
    (st : State) (tid : Int) : State :=
  match st.findVertex tid with
  | none => st
  | some tv =>
      if tv.cloud.isSome ∧ (vid < tv.id - 1 ∨ vid > tv.id + 1) then
        if (st.edges.filter fun e => connects e vid tv.id).length = 0 then
          match getVertexCovariance tv spinv with
          | none => st
          | some tgtCov =>
              if candDistValue mahal enorm srcCov tgtCov
                    (((st.findVertex vid).getD defaultVertex).estimate)
                    tv.estimate ≤ st.gicpMaxSensorDistance then
                candApply vid tv.id
                  (candDistValue mahal enorm srcCov tgtCov
                    (((st.findVertex vid).getD defaultVertex).estimate)
                    tv.estimate) st
              else st
        else st
      else st

/-- `ExtendedSparseOptimizer::findEdgeCandidates(vertex_id, spinv)` (source
lines 277-322): when the source vertex exists, has a cloud and its marginal
covariance is available, run `candStep` over all active vertices and then
record the edge-search state. -/
def findEdgeCandidatesAt (st : State) (vid : Int) (spinv : Int → Option Mat6)
    (mahal : Vec3 → Mat3 → Vec3 → ℚ) (enorm : Vec3 → ℚ) : State :=
  match st.findVertex vid with
  | none => st
  | some sv =>
      if sv.cloud.isSome then
        match getVertexCovariance sv spinv with
        | none => st
        | some srcCov =>
            let st' := st.activeVertices.foldl
              (candStep vid srcCov spinv mahal enorm) st
            st'.modifyVertex vid recordSearch
      else st

/-- Driver `ExtendedSparseOptimizer::findEdgeCandidates()` (source lines
254-275): `spinv` abstracts the marginals computed once by the shadow
graph; every active cloud-bearing vertex whose search has not run is
searched. -/
def findEdgeCandidatesAll (st : State) (spinv : Int → Option Mat6)
    (mahal : Vec3 → Mat3 → Vec3 → ℚ) (enorm : Vec3 → ℚ) : State :=
  st.activeVertices.foldl (fun acc vid =>
    match acc.findVertex vid with
    | none => acc
    | some v =>
        if v.cloud.isSome ∧ ¬v.searchHasRun then
          findEdgeCandidatesAt acc vid spinv mahal enorm
        else acc) st

/-- Selection of the source vertex with the largest missing-edges error over
the active vertices (source lines 333-343); returns the chosen vertex and
the running maximum (strictly positive when a vertex was chosen). -/
def selectSource (st : State) : Option Vertex × ℚ :=
  st.activeVertices.foldl (fun acc vid =>
    match st.findVertex vid with
    | none => acc
    | some v =>
        if v.cloud.isSome ∧ missingEdgesError v.candidates > acc.2 then
          (some v, missingEdgesError v.candidates)
        else acc) (none, 0)

/-- Outcome of one iteration of the `tryBestEdgeCandidates` while loop. -/
inductive TryStep where
  | stopped (st : State)
  | stepped (st : State) (tested : Bool)
  | gicpThrow (st : State)
deriving DecidableEq

/-- One iteration of the while loop of
`ExtendedSparseOptimizer::tryBestEdgeCandidates` (source lines 330-395):
pick the source with the highest missing-edges error (stop and clear
`new_edges_added` when it is zero), pop its best candidate, discard it
without counting when the target is gone or cloudless, otherwise run GICP
(`gicpApply`, throwing on failure).  On a valid measurement the edge is
offered to the solver (`acceptEdge`); the source then inserts the edge into
`edges_to_add` and removes the candidate from both vertices whether or not
the solver accepted it, and counts one test.  On an invalid measurement
both candidates are marked stale and one test is counted. -/
def tryBestStep (st : State) (gicpApply : Edge → Bool × Edge)
    (acceptEdge : Bool) : TryStep :=
  let sel := selectSource st
  if sel.2 = 0 then .stopped {st with newEdgesAdded := false}
  else
    match sel.1 with
    | none => .stepped st false
    | some sv =>
        match bestCandidate sv.candidates with
        | none => .stepped st false
        | some (tid, _) =>
            match st.findVertex tid with
            | none =>
                .stepped (st.modifyVertex sv.id fun v =>
                  {v with candidates := removeCandidate v.candidates tid}) false
            | some tv =>
                if ¬tv.cloud.isSome then
                  .stepped (st.modifyVertex sv.id fun v =>
                    {v with candidates := removeCandidate v.candidates tid}) false
                else
                  let edge0 : Edge :=
                    { source := sv.id, target := tid, measurement := Pose.id,
                      information := 1, gicpValid := false, fitness := 0 }
                  match gicpApply edge0 with
                  | (false, _) => .gicpThrow st
                  | (true, edge1) =>
                      if edge1.gicpValid then
                        let stG :=
                          if acceptEdge then {st with edges := st.edges ++ [edge1]}
                          else st
                        let st1 := {stG with edgesToAdd := stG.edgesToAdd ++ [edge1]}
                        let st2 := st1.modifyVertex sv.id fun v =>
                          {v with candidates := removeCandidate v.candidates tid}
                        let st3 := st2.modifyVertex tid fun v =>
                          {v with candidates := removeCandidate v.candidates sv.id}
                        .stepped st3 true
                      else
                        let st1 := st.modifyVertex sv.id fun v =>
                          {v with candidates := staleCandidate v.candidates tid}
                        let st2 := st1.modifyVertex tid fun v =>
                          {v with candidates := staleCandidate v.candidates sv.id}
                        .stepped st2 true

/-- Oracles for the external solvers used by `optimize`: the results of
`initializeOptimization` and `updateInitialization`, the integer returned
by `g2o::SparseOptimizer::optimize`, and the estimate updates it performs
on the active vertices. -/
structure OptOracles where
  initOk : Bool
  updateOk : Bool
  solverResult : Int
  solverUpdate : Int → Pose → Pose

/-- Effect of a `g2o::SparseOptimizer::optimize` run: the solver rewrites
the estimates of the active vertices. -/
def solverRun (st : State) (o : OptOracles) : State :=
  {st with vertices := st.vertices.map fun v =>
    if st.activeVertices.contains v.id then
      {v with estimate := o.solverUpdate v.id v.estimate}
    else v}

/-- Effect of g2o `initializeOptimization`: all graph vertices and edges
become active and handled by the optimizer. -/
def initializePrimary (st : State) : State :=
  {st with activeVertices := st.vertices.map (·.id)
           activeEdges := st.edges
           vertices := st.vertices.map fun v => {v with handled := true}}

/-- Effect of g2o `updateInitialization(vertices_to_add, edges_to_add)`: the
staged vertices and edges join the active sets and become handled. -/
def updatePrimary (st : State) : State :=
  {st with activeVertices := st.activeVertices ++ st.verticesToAdd
           activeEdges := st.activeEdges ++ st.edgesToAdd
           vertices := st.vertices.map fun v =>
             if st.verticesToAdd.contains v.id then {v with handled := true} else v}

/-- Mirroring of the staged vertices and edges into the shadow covariance
graph (source lines 411-426): fresh shadow vertices copy id and fixed flag;
shadow edges carry the identity measurement and the primary information
matrix, endpoints resolved by id. -/
def mirrorStaged (st : State) : State :=
  {st with covGraph :=
    ⟨st.covGraph.vertices ++ st.verticesToAdd.map (fun vid =>
        (vid, ((st.findVertex vid).getD defaultVertex).fixedFlag)),
     st.covGraph.edges ++ st.edgesToAdd.map mirrorEdge⟩}

/-- Insertion of the freshly committed vertices into the vertex grid
(source lines 450-458); the grid itself is external to the translated
source, its contents are modelled as the list of insertions. -/
def gridPhase (st : State) : State :=
  if st.useVertexGrid then
    {st with vertexGrid := st.vertexGrid ++ st.verticesToAdd.map fun vid =>
      (vid, (((st.findVertex vid).getD defaultVertex).estimate).trans)}
  else st

/-- `ExtendedSparseOptimizer::optimize` (source lines 398-471).  Returns the
solver result (or the thrown error with the state as mutated up to the
throw), the new state, and the trace of collaborator calls.  `iterations`
and `online` are forwarded to the external solvers, whose effect the
oracles capture. -/
def optimize (st : State) (_iterations : Int) (_online : Bool)
    (o : OptOracles) : Except Err Int × State × List Event :=
  if st.activeVertices.length = 0 ∧ st.verticesToAdd.length < 2 then
    (.ok 0, st, [])
  else if st.verticesToAdd ≠ [] ∨ st.edgesToAdd ≠ [] then
    let st1 := mirrorStaged st
    let ev1 := [Event.shadowMirror, Event.shadowOptimize]
    if st.initialized then
      if ¬o.updateOk then
        (.error .optimizerUpdate, st1, ev1 ++ [Event.primaryPrepare])
      else
        let st3 := solverRun (updatePrimary st1) o
        let st4 := gridPhase st3
        (.ok o.solverResult,
         {st4 with verticesToAdd := [], edgesToAdd := [],
                   mapUpdateNecessary := true},
         ev1 ++ [Event.primaryPrepare, Event.primaryOptimize]
             ++ (if st.useVertexGrid then st.verticesToAdd.map Event.gridInsert
                 else [])
             ++ [Event.stagingClear])
    else
      if ¬o.initOk then
        (.error .optimizerInit, st1, ev1 ++ [Event.primaryPrepare])
      else
        let st3 := solverRun {initializePrimary st1 with initialized := true} o
        let st4 := gridPhase st3
        (.ok o.solverResult,
         {st4 with verticesToAdd := [], edgesToAdd := [],
                   mapUpdateNecessary := true},
         ev1 ++ [Event.primaryPrepare, Event.primaryOptimize]
             ++ (if st.useVertexGrid then st.verticesToAdd.map Event.gridInsert
                 else [])
             ++ [Event.stagingClear])
  else
    (.ok o.solverResult, {solverRun st o with mapUpdateNecessary := true},
     [Event.primaryOptimize])

/-- Refresh of one vertex's frame node by `updateEnvire` (source lines
521-540 with `getEnvireTransformWithUncertainty`, lines 578-596): the frame
node of a cloud-bearing vertex takes the current estimate and, when the
marginal is available, its covariance in the external convention. -/
def refreshVertex (spinv : Int → Option Mat6) (v : Vertex) : Vertex :=
  if v.cloud.isSome then
    match v.framenode with
    | some _ =>
        let fn : FrameNode :=
          ⟨v.estimate, (getVertexCovariance v spinv).map switchEnvireG2oCov⟩
        {v with framenode := some fn}
    | none => v
  else v

/-- Marginals actually visible to the frame-node loop: the shadow graph's
`computeMarginals` is only invoked when some cloud-bearing handled vertex
exists; otherwise the block matrix stays empty (source lines 508-519). -/
def effectiveSpinv (st : State) (spinv : Int → Option Mat6) :
    Int → Option Mat6 :=
  if (st.vertices.filter fun v => v.cloud.isSome && v.handled) = [] then
    fun _ => none
  else spinv

/-- `ExtendedSparseOptimizer::updateEnvire` (source lines 501-550): no-op
returning true when no map update is necessary; otherwise every
cloud-bearing vertex with a frame node has that node refreshed, the MLS
grid is re-projected when enabled, and the call returns true exactly when
no cloud-bearing vertex lacked a frame node.  The
`map_update_necessary` flag is never written. -/
def updateEnvire (st : State) (spinv : Int → Option Mat6) : Bool × State :=
  if ¬st.mapUpdateNecessary then (true, st)
  else
    let sp := effectiveSpinv st spinv
    let errCount :=
      (st.vertices.filter fun v => v.cloud.isSome && v.framenode.isNone).length
    let st1 := {st with vertices := st.vertices.map (refreshVertex sp)}
    let st2 :=
      if st.useMls then
        {st1 with mlsProjectionVersion := st1.mlsProjectionVersion + 1}
      else st1
    (errCount == 0, st2)

/-- `ExtendedSparseOptimizer::adjustOdometryPose` (source lines 598-610):
none when `last_vertex` is null, otherwise the last vertex's current
estimate composed with the inverse of the last odometry pose and the raw
pose, exactly as the source parenthesises it. -/
def adjustOdometryPose (st : State) (raw : Pose) : Option Pose :=
  match st.lastVertex with
  | none => none
  | some i =>
      some ((((st.findVertex i).getD defaultVertex).estimate).comp
        ((Pose.inv st.odometryPoseLast).comp raw))

/-- Colors used by `dumpGraphViz` for edges. -/
inductive EdgeColor where
  | red
  | blue
deriving DecidableEq

/-- Attributes emitted for one edge by `dumpGraphViz`. -/
structure EdgeAttrs where
  label : Option ℚ
  color : Option EdgeColor
deriving DecidableEq

/-- Two-decimal truncation `0.01 * floor(100 * x)` used for the fitness
label (source line 638). -/
def floorCenti (x : ℚ) : ℚ := ((⌊x * 100⌋ : ℤ) : ℚ) / 100

/-- Two-decimal rounding to the nearest (the plain reading of rounding a
value to two decimals), for comparison with `floorCenti`. -/
def roundCenti (x : ℚ) : ℚ := ((round (x * 100) : ℤ) : ℚ) / 100

/-- Sequential edges join a vertex to its immediate successor; this is how
every odometry edge produced by `addVertex` is oriented. -/
def Edge.isSequential (e : Edge) : Bool := e.source + 1 == e.target

/-- Attributes `dumpGraphViz` emits for one edge (source lines 629-648):
valid GICP edges carry the truncated fitness score as a label; invalid GICP
edges are red, valid non-sequential ones blue, and sequential ones keep the
default color. -/
def edgeAttrs (e : Edge) : EdgeAttrs :=
  { label := if e.gicpValid then some (floorCenti e.fitness) else none
    color :=
      if ¬e.gicpValid then some .red
      else if e.source + 1 ≠ e.target then some .blue
      else none }

/-- Attributes emitted for one vertex by `dumpGraphViz` (source lines
617-628): id, XY position, and dashed style when no cloud is attached. -/
structure VertexAttrs where
  id : Int
  posX : ℚ
  posY : ℚ
  dashed : Bool
deriving DecidableEq

/-- Vertex attribute computation of `dumpGraphViz`. -/
def vertexAttrs (v : Vertex) : VertexAttrs :=
  ⟨v.id, v.estimate.trans 0, v.estimate.trans 1, !v.cloud.isSome⟩

/-- `ExtendedSparseOptimizer::dumpGraphViz` (source lines 612-650),
abstracted to the attributes it prints for the active vertices and edges. -/
def dumpGraphViz (st : State) : List VertexAttrs × List EdgeAttrs :=
  (st.activeVertices.filterMap fun i => (st.findVertex i).map vertexAttrs,
   st.activeEdges.map edgeAttrs)

/-- State carried by a `TryStep` outcome. -/
def tryStepState : TryStep → State
  | .stopped s => s
  | .stepped s _ => s
  | .gicpThrow s => s

/-- Whether the `TryStep` outcome counted one candidate test. -/
def tryStepTested : TryStep → Bool
  | .stepped _ t => t
  | _ => false

/-- Distance stored for the candidate targeting `k` on the vertex `i`. -/
def candDistance (st : State) (i k : Int) : Option ℚ :=
  (lookupCandidate (((st.findVertex i).getD defaultVertex).candidates) k).map
    (·.mahalanobis_distance)

/-- Fields of a vertex that the candidate search reads but never writes. -/
structure VCore where
  id : Int
  estimate : Pose
  cloud : Option Cloud
  handled : Bool
  hessianIndex : Int
deriving DecidableEq

/-- Projection of a vertex onto its search-relevant read-only fields. -/
def Vertex.core (v : Vertex) : VCore :=
  ⟨v.id, v.estimate, v.cloud, v.handled, v.hessianIndex⟩

/-- Agreement of two states on everything the candidate search reads:
vertex lookups up to candidate maps, the edge set, and the sensor-distance
gate. -/
def coreAgree (a b : State) : Prop :=
  (∀ i, (a.findVertex i).map Vertex.core = (b.findVertex i).map Vertex.core) ∧
  a.edges = b.edges ∧
  a.gicpMaxSensorDistance = b.gicpMaxSensorDistance

theorem coreAgree_refl (a : State) : coreAgree a a := ⟨fun _ => rfl, rfl, rfl⟩

theorem coreAgree_trans {a b c : State} (h1 : coreAgree a b)
    (h2 : coreAgree b c) : coreAgree a c :=
  ⟨fun i => (h1.1 i).trans (h2.1 i), h1.2.1.trans h2.2.1, h1.2.2.trans h2.2.2⟩

theorem find?_map_id_preserving (l : List Vertex) (g : Vertex → Vertex)
    (hg : ∀ v, (g v).id = v.id) (i : Int) :
    (l.map g).find? (fun v => v.id = i) =
      (l.find? (fun v => v.id = i)).map g := by
  induction l with
  | nil => rfl
  | cons a l ih =>
      by_cases h : a.id = i
      · rw [List.map_cons, List.find?_cons_of_pos, List.find?_cons_of_pos]
        · rfl
        · simpa using h
        · simpa using (hg a).trans h
      · rw [List.map_cons, List.find?_cons_of_neg, List.find?_cons_of_neg, ih]
        · simpa using h
        · simpa using (hg a).trans_ne h

theorem findVertex_modifyVertex (st : State) (j : Int) (f : Vertex → Vertex)
    (hf : ∀ v, (f v).id = v.id) (i : Int) :
    (st.modifyVertex j f).findVertex i =
      (st.findVertex i).map fun v => if v.id = j then f v else v := by
  unfold State.modifyVertex State.findVertex
  exact find?_map_id_preserving st.vertices _ (fun v => by split <;> simp [hf]) i

theorem findVertex_some_id (st : State) (i : Int) (v : Vertex)
    (h : st.findVertex i = some v) : v.id = i := by
  have := List.find?_some h
  simpa using this

theorem modifyVertex_edges (st : State) (j : Int) (f : Vertex → Vertex) :
    (st.modifyVertex j f).edges = st.edges := rfl

theorem modifyVertex_gicpMax (st : State) (j : Int) (f : Vertex → Vertex) :
    (st.modifyVertex j f).gicpMaxSensorDistance = st.gicpMaxSensorDistance := rfl

theorem modifyVertex_newEdges (st : State) (j : Int) (f : Vertex → Vertex) :
    (st.modifyVertex j f).newEdgesAdded = st.newEdgesAdded := rfl

theorem lookupCandidate_addCandidate_self (cs : List (Int × EdgeCandidate))
    (tid : Int) (d : ℚ) :
    lookupCandidate (addCandidate cs tid d) tid = some ⟨d, d, false⟩ := by
  simp [lookupCandidate, addCandidate]

theorem find?_filter_of_imp {α : Type} (l : List α) (p q : α → Bool)
    (h : ∀ x, p x = true → q x = true) :
    (l.filter q).find? p = l.find? p := by
  induction l with
  | nil => rfl
  | cons a l ih =>
      by_cases hp : p a = true
      · rw [List.filter_cons, if_pos (h a hp), List.find?_cons_of_pos _ hp,
            List.find?_cons_of_pos _ hp]
      · by_cases hq : q a = true
        · rw [List.filter_cons, if_pos hq, List.find?_cons_of_neg _ (by simpa using hp),
              List.find?_cons_of_neg _ (by simpa using hp), ih]
        · rw [List.filter_cons, if_neg hq, ih, List.find?_cons_of_neg _ (by simpa using hp)]

theorem lookupCandidate_addCandidate_ne (cs : List (Int × EdgeCandidate))
    (tid : Int) (d : ℚ) (k : Int) (h : k ≠ tid) :
    lookupCandidate (addCandidate cs tid d) k = lookupCandidate cs k := by
  unfold lookupCandidate addCandidate
  rw [List.find?_cons_of_neg _ (by simpa using fun he => h he.symm)]
  rw [find?_filter_of_imp]
  intro x hx
  have : x.1 = k := by simpa using hx
  simpa [this] using h

/-- NaN-free identity transformation input. -/
def cleanNPose : NPose :=
  ⟨Matrix.of fun i j => some (if i = j then 1 else 0), fun _ => some 0⟩

/-- NaN-free identity covariance input. -/
def cleanNCov : NMat6 :=
  Matrix.of fun i j => some (if i = j then 1 else 0)

/-- Covariance input whose (0,0) entry is NaN. -/
def nanCov : NMat6 :=
  Matrix.of fun i j => if i = 0 ∧ j = 0 then none else some 1

/-- GICP oracle that always succeeds and leaves the edge unchanged. -/
def gicpOk : Bool → Edge → Bool × Edge := fun _ e => (true, e)

/-- GICP oracle that always fails. -/
def gicpFailing : Bool → Edge → Bool × Edge := fun _ e => (false, e)

/-- Eigen-inverse oracle used in concrete runs (its value is irrelevant to
every property proved here). -/
def minvId : Mat6 → Mat6 := fun M => M

/-- Solver oracles that succeed, return 0 and keep all estimates. -/
def oracleId : OptOracles := ⟨true, true, 0, fun _ p => p⟩

/-- Empty marginals oracle. -/
def spinvNone : Int → Option Mat6 := fun _ => none

/-- C5: `optimize(iterations, online)` returns 0 without running the
solver, mutating staging, or touching the shadow graph — the state is
returned unchanged and no collaborator call is made — whenever there are no
active vertices and fewer than 2 staged vertices (source lines 400-404). -/
theorem C5_optimize_early_return (st : State) (iterations : Int)
    (online : Bool) (o : OptOracles)
    (h1 : st.activeVertices.length = 0) (h2 : st.verticesToAdd.length < 2) :
    optimize st iterations online o = (.ok 0, st, []) := by
  unfold optimize
  rw [if_pos ⟨h1, h2⟩]

/-- Witness for C5: the freshly constructed optimizer. -/
theorem C5_optimize_early_return_witness :
    optimize initialState 5 true oracleId = (.ok 0, initialState, []) :=
  C5_optimize_early_return initialState 5 true oracleId rfl (by decide)

/-- C6: when the input pose or covariance contains a NaN (and the id space
is not exhausted, which is rejected first), `addVertex` fails with a
BadInput error before the vertex is created: the state — graph, `next_id`,
`last_vertex`, odometry memory and staging — is returned unchanged
(source lines 95-116). -/
theorem C6_addVertex_nan_guard (st : State) (npose : NPose) (ncov : NMat6)
    (cloudPts : List Vec3) (sensorOrigin : Pose)
    (delayed acceptVertex acceptEdge : Bool)
    (gicpApply : Bool → Edge → Bool × Edge) (minv : Mat6 → Mat6)
    (hov : st.nextVertexId ≠ intMax)
    (hnan : npose.isNan = true ∨ isNanMat6 ncov = true) :
    addVertex st npose ncov cloudPts sensorOrigin delayed acceptVertex
      acceptEdge gicpApply minv = (.error .badInput, st) := by
  unfold addVertex
  rcases hnan with h | h
  · rw [if_neg hov, if_pos (by simp [h])]
  · rw [if_neg hov]
    by_cases hp : npose.isNan = true
    · rw [if_pos (by simp [hp])]
    · rw [if_neg (by simp [hp])]
      rw [if_pos (by simp [isNanMat6_switch, h])]

/-- Witness for C6: adding a pose whose covariance contains a NaN to the
fresh optimizer raises BadInput and leaves the state untouched. -/
theorem C6_addVertex_nan_guard_witness :
    addVertex initialState cleanNPose nanCov [] Pose.id false true true
      gicpOk minvId = (.error .badInput, initialState) :=
  C6_addVertex_nan_guard initialState cleanNPose nanCov [] Pose.id false true
    true gicpOk minvId (by decide) (Or.inr (by decide))

/-- C8: `adjustOdometryPose(raw)` returns none exactly when `last_vertex`
is null, and otherwise returns
`last_vertex.estimate ∘ inverse(odometry_pose_last) ∘ raw`
(source lines 598-610; the source parenthesises the composition to the
right, which agrees by associativity). -/
theorem C8_adjust_odometry_pose (st : State) (raw : Pose) :
    (adjustOdometryPose st raw = none ↔ st.lastVertex = none) ∧
    (∀ i v, st.lastVertex = some i → st.findVertex i = some v →
      adjustOdometryPose st raw =
        some ((v.estimate.comp (Pose.inv st.odometryPoseLast)).comp raw)) := by
  constructor
  · unfold adjustOdometryPose
    cases h : st.lastVertex <;> simp [h]
  · intro i v hi hv
    unfold adjustOdometryPose
    rw [hi]
    simp [hv, Pose.comp_assoc]

/-- Vertex fixture: id 0, identity estimate, empty cloud attached, frame
node present, handled by the optimizer. -/
def vtxW : Vertex :=
  {defaultVertex with id := 0, cloud := some ⟨[], Pose.id⟩,
                      framenode := some ⟨Pose.id, none⟩, handled := true}

/-- State fixture for C8: one vertex, registered as the last vertex. -/
def stC8 : State := {initialState with vertices := [vtxW], lastVertex := some 0}

/-- Witness for C8: with a last vertex present, the adjusted pose is the
specified composition. -/
theorem C8_adjust_odometry_pose_witness :
    adjustOdometryPose stC8 Pose.id =
      some ((vtxW.estimate.comp (Pose.inv stC8.odometryPoseLast)).comp Pose.id) :=
  (C8_adjust_odometry_pose stC8 Pose.id).2 0 vtxW rfl (by decide)

/-- Edge fixture for C9: a valid non-sequential GICP edge with fitness
score 0.019, where flooring and rounding to two decimals differ. -/
def edgeC9 : Edge :=
  { source := 0, target := 5, measurement := Pose.id, information := 1,
    gicpValid := true, fitness := 19/1000 }

/-- C9 counterexample: `dumpGraphViz` labels a valid GICP edge with
`0.01 * floor(100 * fitness)`, which truncates rather than rounds; at
fitness 0.019 the emitted label is 0.01 while rounding to two decimals
gives 0.02, refuting the claim that the label is the fitness score rounded
to two decimals. -/
theorem C9_label_truncates_counterexample :
    (edgeAttrs edgeC9).label = some (1/100) ∧
    roundCenti edgeC9.fitness = 1/50 ∧
    (edgeAttrs edgeC9).label ≠ some (roundCenti edgeC9.fitness) := by
  have hf : floorCenti (19/1000 : ℚ) = 1/100 := by
    have : ⌊(19/1000 : ℚ) * 100⌋ = 1 := by norm_num
    rw [floorCenti, this]
    norm_num
  have hr : roundCenti (19/1000 : ℚ) = 1/50 := by
    have : round ((19/1000 : ℚ) * 100) = 2 := by
      rw [round_eq]
      norm_num
    rw [roundCenti, this]
    norm_num
  refine ⟨by simp [edgeAttrs, edgeC9, hf], by simpa [edgeC9] using hr, ?_⟩
  simp only [edgeAttrs, edgeC9, hf, hr]
  norm_num

/-- C9 (amended): `dumpGraphViz` emits the attributes of every active edge
and vertex; an edge is red exactly when its GICP measurement is invalid,
blue exactly when it is a valid non-sequential GICP edge, and default
colored exactly when it is a valid sequential edge; a valid GICP edge is
labelled with its fitness score truncated (rounded down) to two decimals,
an invalid one is unlabelled; a vertex is dashed exactly when it has no
attached cloud. -/
theorem C9_dump_graphviz_styles (st : State) (e : Edge) (v : Vertex) :
    (dumpGraphViz st).2 = st.activeEdges.map edgeAttrs ∧
    ((edgeAttrs e).color = some .red ↔ e.gicpValid = false) ∧
    ((edgeAttrs e).color = some .blue ↔
      e.gicpValid = true ∧ e.isSequential = false) ∧
    ((edgeAttrs e).color = none ↔
      e.gicpValid = true ∧ e.isSequential = true) ∧
    ((edgeAttrs e).label =
      if e.gicpValid then some (floorCenti e.fitness) else none) ∧
    (vertexAttrs v).dashed = !v.cloud.isSome := by
  refine ⟨rfl, ?_, ?_, ?_, rfl, rfl⟩ <;>
    cases hv : e.gicpValid <;>
      by_cases hs : e.source + 1 = e.target <;>
        simp [edgeAttrs, Edge.isSequential, hv, hs]

theorem map_id_modifyVertex (st : State) (j : Int) (f : Vertex → Vertex)
    (hf : ∀ v, (f v).id = v.id) :
    (st.modifyVertex j f).vertices.map (·.id) = st.vertices.map (·.id) := by
  simp only [State.modifyVertex, List.map_map]
  have : ((·.id : Vertex → Int) ∘ fun v => if v.id = j then f v else v) =
      (·.id : Vertex → Int) := by
    funext v
    simp only [Function.comp_apply]
    split <;> simp [hf]
  rw [this]

/-- C1 (amended): when the GICP measurement of the new sequential edge
fails on the strict (non-delayed) path, the whole add fails with a
GicpError; the staging sets, `next_id`, `last_vertex`,
`odometry_pose_last`, `odometry_covariance_last`, the primary edge set and
the shadow graph keep their previous values, but — contrary to the original
claim — the newly created vertex is NOT removed from the graph (it remains
appended, with its cloud attached) and its allocations are not released
(source lines 165-166 throw without the rollback that the
`addEdge`-failure branch at lines 168-176 performs). -/
theorem C1_gicp_failure_keeps_vertex (st : State) (npose : NPose)
    (ncov : NMat6) (cloudPts : List Vec3) (sensorOrigin : Pose)
    (acceptEdge : Bool) (gicpApply : Bool → Edge → Bool × Edge)
    (minv : Mat6 → Mat6) (lastId : Int)
    (hov : st.nextVertexId ≠ intMax)
    (hp : npose.isNan = false)
    (hc : isNanMat6 (switchEnvireG2oCov ncov) = false)
    (hz : st.nextVertexId ≠ 0)
    (hl : st.lastVertex = some lastId)
    (hg : (gicpApply false (seqEdge st npose.toPose
        (deNanMat6 (switchEnvireG2oCov ncov)) minv lastId)).1 = false) :
    ∃ stAfter,
      addVertex st npose ncov cloudPts sensorOrigin false true acceptEdge
          gicpApply minv = (.error .gicpFail, stAfter) ∧
      stAfter.verticesToAdd = st.verticesToAdd ∧
      stAfter.edgesToAdd = st.edgesToAdd ∧
      stAfter.nextVertexId = st.nextVertexId ∧
      stAfter.lastVertex = st.lastVertex ∧
      stAfter.odometryPoseLast = st.odometryPoseLast ∧
      stAfter.odometryCovLast = st.odometryCovLast ∧
      stAfter.edges = st.edges ∧
      stAfter.covGraph = st.covGraph ∧
      stAfter.vertices.map (·.id) = st.vertices.map (·.id) ++ [st.nextVertexId] := by
  rcases hge : gicpApply false (seqEdge st npose.toPose
      (deNanMat6 (switchEnvireG2oCov ncov)) minv lastId) with ⟨b, e1⟩
  have hb : b = false := by rw [hge] at hg; exact hg
  subst hb
  simp only [addVertex]
  rw [if_neg hov]
  rw [if_neg (by simp [hp])]
  rw [if_neg (by simp [hc])]
  rw [if_neg (show ¬¬True by simp)]
  rw [if_neg (by simp [hz, hl])]
  have hget : st.lastVertex.getD 0 = lastId := by rw [hl]; rfl
  rw [hget]
  rw [hge]
  refine ⟨_, rfl, rfl, rfl, rfl, rfl, rfl, rfl, rfl, rfl, ?_⟩
  refine (map_id_modifyVertex _ _ _ ?_).trans ?_
  · intro v
    rfl
  · simp [List.map_append]

/-- Vertex fixture: the first vertex of a trajectory (id 0, fixed). -/
def vtx0C1 : Vertex :=
  {defaultVertex with id := 0, fixedFlag := true, cloud := some ⟨[], Pose.id⟩,
                      framenode := some ⟨Pose.id, none⟩}

/-- State fixture for C1: one committed first vertex. -/
def stC1 : State :=
  {initialState with vertices := [vtx0C1], nextVertexId := 1,
                     lastVertex := some 0, verticesToAdd := [0]}

/-- Concrete `addVertex` run on which the sequential GICP measurement
fails. -/
def addC1 : Except Err Bool × State :=
  addVertex stC1 cleanNPose cleanNCov [] Pose.id false true true
    gicpFailing minvId

/-- C1 counterexample: when GICP fails on the strict path, the add fails,
but the newly created vertex is NOT removed from the graph — the vertex
list grows from [0] to [0, 1] — refuting the claimed rollback of the
vertex. -/
theorem C1_counterexample_vertex_remains :
    addC1.1 = .error .gicpFail ∧
    stC1.vertices.map (·.id) = [0] ∧
    addC1.2.vertices.map (·.id) = [0, 1] ∧
    addC1.2.vertices.map (·.id) ≠ stC1.vertices.map (·.id) := by
  refine ⟨by decide, by decide, by decide, by decide⟩

/-- Witness for the amended C1 at the concrete failing run. -/
theorem C1_gicp_failure_keeps_vertex_witness :
    ∃ stAfter,
      addVertex stC1 cleanNPose cleanNCov [] Pose.id false true true
          gicpFailing minvId = (.error .gicpFail, stAfter) ∧
      stAfter.verticesToAdd = stC1.verticesToAdd ∧
      stAfter.edgesToAdd = stC1.edgesToAdd ∧
      stAfter.nextVertexId = stC1.nextVertexId ∧
      stAfter.lastVertex = stC1.lastVertex ∧
      stAfter.odometryPoseLast = stC1.odometryPoseLast ∧
      stAfter.odometryCovLast = stC1.odometryCovLast ∧
      stAfter.edges = stC1.edges ∧
      stAfter.covGraph = stC1.covGraph ∧
      stAfter.vertices.map (·.id) =
        stC1.vertices.map (·.id) ++ [stC1.nextVertexId] :=
  C1_gicp_failure_keeps_vertex stC1 cleanNPose cleanNCov [] Pose.id true
    gicpFailing minvId 0 (by decide) (by decide) (by decide) (by decide) rfl
    (by decide)

theorem solverRun_covGraph (st : State) (o : OptOracles) :
    (solverRun st o).covGraph = st.covGraph := rfl

theorem updatePrimary_covGraph (st : State) :
    (updatePrimary st).covGraph = st.covGraph := rfl

theorem initializePrimary_covGraph (st : State) :
    (initializePrimary st).covGraph = st.covGraph := rfl

theorem gridPhase_covGraph (st : State) :
    (gridPhase st).covGraph = st.covGraph := by
  unfold gridPhase
  split <;> rfl

/-- C2 (amended): every `optimize` call whose guard passes, that has staged
items and whose solver calls succeed, extends the shadow covariance graph
by exactly the staged vertices (same id and fixed flag) and by one mirror
per staged primary edge — identity measurement, same information matrix,
endpoints resolved by vertex id — and returns the solver result.  Over a
run the shadow vertex set therefore accumulates every committed vertex; it
equals the set of cloud-bearing primary vertices only until a point cloud
is removed (see the counterexample). -/
theorem C2_shadow_mirrors_staged (st : State) (iterations : Int)
    (online : Bool) (o : OptOracles)
    (hng : ¬(st.activeVertices.length = 0 ∧ st.verticesToAdd.length < 2))
    (hs : st.verticesToAdd ≠ [] ∨ st.edgesToAdd ≠ [])
    (hu : st.initialized = true → o.updateOk = true)
    (hi : st.initialized = false → o.initOk = true) :
    (optimize st iterations online o).1 = .ok o.solverResult ∧
    ((optimize st iterations online o).2.1).covGraph =
      ⟨st.covGraph.vertices ++ st.verticesToAdd.map (fun vid =>
          (vid, ((st.findVertex vid).getD defaultVertex).fixedFlag)),
       st.covGraph.edges ++ st.edgesToAdd.map mirrorEdge⟩ := by
  unfold optimize
  rw [if_neg hng, if_pos hs]
  by_cases hinit : st.initialized = true
  · rw [if_pos hinit, if_neg (by simp [hu hinit])]
    refine ⟨rfl, ?_⟩
    show (gridPhase (solverRun (updatePrimary (mirrorStaged st)) o)).covGraph = _
    rw [gridPhase_covGraph, solverRun_covGraph, updatePrimary_covGraph]
    rfl
  · rw [if_neg hinit, if_neg (by simp [hi (by simpa using hinit)])]
    refine ⟨rfl, ?_⟩
    show (gridPhase (solverRun
      {initializePrimary (mirrorStaged st) with initialized := true} o)).covGraph = _
    rw [gridPhase_covGraph, solverRun_covGraph]
    rfl

/-- State fixture for the C2 witness: one staged vertex alongside an
already-active one. -/
def stW2 : State :=
  {initialState with vertices := [vtx0C1], verticesToAdd := [0],
                     activeVertices := [9]}

/-- Witness for the amended C2: committing one staged vertex appends
exactly its mirror to the shadow graph. -/
theorem C2_shadow_mirrors_staged_witness :
    (optimize stW2 1 false oracleId).1 = .ok oracleId.solverResult ∧
    ((optimize stW2 1 false oracleId).2.1).covGraph =
      ⟨stW2.covGraph.vertices ++ stW2.verticesToAdd.map (fun vid =>
          (vid, ((stW2.findVertex vid).getD defaultVertex).fixedFlag)),
       stW2.covGraph.edges ++ stW2.edgesToAdd.map mirrorEdge⟩ :=
  C2_shadow_mirrors_staged stW2 1 false oracleId (by decide)
    (Or.inl (by decide)) (by decide) (by decide)

/-- C7: within a single `optimize` with non-empty staging (guard passed,
grid enabled, solver calls succeeding), the collaborator calls happen in
exactly this order: shadow-graph mirroring, shadow optimization, primary
initialize-or-update, primary optimization, insertion of each staged
vertex into the vertex grid, and finally the staging clear (source lines
407-462). -/
theorem C7_optimize_event_order (st : State) (iterations : Int)
    (online : Bool) (o : OptOracles)
    (hng : ¬(st.activeVertices.length = 0 ∧ st.verticesToAdd.length < 2))
    (hs : st.verticesToAdd ≠ [] ∨ st.edgesToAdd ≠ [])
    (hgrid : st.useVertexGrid = true)
    (hu : st.initialized = true → o.updateOk = true)
    (hi : st.initialized = false → o.initOk = true) :
    (optimize st iterations online o).2.2 =
      [Event.shadowMirror, Event.shadowOptimize, Event.primaryPrepare,
       Event.primaryOptimize] ++ st.verticesToAdd.map Event.gridInsert
        ++ [Event.stagingClear] := by
  unfold optimize
  rw [if_neg hng, if_pos hs]
  by_cases hinit : st.initialized = true
  · rw [if_pos hinit, if_neg (by simp [hu hinit])]
    simp [hgrid]
  · rw [if_neg hinit, if_neg (by simp [hi (by simpa using hinit)])]
    simp [hgrid]

/-- Second vertex fixture. -/
def vtx1C7 : Vertex :=
  {defaultVertex with id := 1, cloud := some ⟨[], Pose.id⟩,
                      framenode := some ⟨Pose.id, none⟩}

/-- State fixture for the C7 witness: two staged vertices, grid enabled. -/
def stW7 : State :=
  {initialState with vertices := [vtx0C1, vtx1C7], verticesToAdd := [0, 1],
                     useVertexGrid := true}

/-- Witness for C7 at a concrete committing run. -/
theorem C7_optimize_event_order_witness :
    (optimize stW7 1 false oracleId).2.2 =
      [Event.shadowMirror, Event.shadowOptimize, Event.primaryPrepare,
       Event.primaryOptimize] ++ stW7.verticesToAdd.map Event.gridInsert
        ++ [Event.stagingClear] :=
  C7_optimize_event_order stW7 1 false oracleId (by decide)
    (Or.inl (by decide)) rfl (by decide) (by decide)

/-- Concrete trajectory for the C2 counterexample: two vertices added and
committed, then vertex 0's point cloud is removed, then another successful
`optimize` runs. -/
def stRunA : State :=
  (addVertex initialState cleanNPose cleanNCov [] Pose.id false true true
    gicpOk minvId).2

/-- Second add of the C2 counterexample run. -/
def stRunB : State :=
  (addVertex stRunA cleanNPose cleanNCov [] Pose.id false true true
    gicpOk minvId).2

/-- First (committing) optimize of the C2 counterexample run. -/
def stRunC : State := (optimize stRunB 1 false oracleId).2.1

/-- State after removing vertex 0's point cloud. -/
def stRunD : State := (removePointcloudFromVertex stRunC 0).2

/-- Second optimize of the C2 counterexample run. -/
def optRunE : Except Err Int × State × List Event :=
  optimize stRunD 1 false oracleId

/-- C2 counterexample: after the second optimize — which succeeds, returning
0 — the shadow covariance graph still holds vertices 0 and 1, while only
vertex 1 of the primary graph carries a point cloud (vertex 0's cloud was
removed without touching the shadow graph), refuting the claimed equality
of the shadow vertex set with the cloud-bearing primary vertex set. -/
theorem C2_counterexample_cloud_removed :
    (removePointcloudFromVertex stRunC 0).1 = true ∧
    optRunE.1 = .ok 0 ∧
    optRunE.2.1.covGraph.vertices.map Prod.fst = [0, 1] ∧
    (optRunE.2.1.vertices.filter fun v => v.cloud.isSome).map (·.id) = [1] ∧
    optRunE.2.1.covGraph.vertices.map Prod.fst ≠
      (optRunE.2.1.vertices.filter fun v => v.cloud.isSome).map (·.id) := by
  refine ⟨by decide, by decide, by decide, by decide, by decide⟩

/-- C10 (amended): `updateEnvire` never writes `map_update_necessary`; when
the flag is false it returns true immediately doing nothing; when the flag
is true — as every `optimize` leaves it — it refreshes every cloud-bearing
vertex's frame node from the current estimate and marginals, and returns
true exactly when every cloud-bearing vertex of the graph (whether or not
it is handled by the optimizer) has a frame node. -/
theorem C10_update_envire_contract (st : State) (spinv : Int → Option Mat6) :
    ((updateEnvire st spinv).2).mapUpdateNecessary = st.mapUpdateNecessary ∧
    (st.mapUpdateNecessary = false → updateEnvire st spinv = (true, st)) ∧
    (st.mapUpdateNecessary = true →
      (((updateEnvire st spinv).1 = true) ↔
        ∀ v ∈ st.vertices, v.cloud.isSome = true → v.framenode.isSome = true) ∧
      ((updateEnvire st spinv).2).vertices =
        st.vertices.map (refreshVertex (effectiveSpinv st spinv))) := by
  by_cases hm : st.mapUpdateNecessary = true
  · simp only [updateEnvire]
    rw [if_neg (by simp [hm])]
    refine ⟨?_, ?_, ?_⟩
    · split <;> rfl
    · intro h
      rw [hm] at h
      exact absurd h (by simp)
    · intro _
      refine ⟨?_, ?_⟩
      · rw [beq_iff_eq, List.length_eq_zero, List.filter_eq_nil_iff]
        constructor
        · intro h v hv hc
          have hnv := h v hv
          cases hf : v.framenode with
          | none => rw [hf] at hnv; simp [hc] at hnv
          | some fn => rfl
        · intro h v hv
          by_cases hc : v.cloud.isSome = true
          · have hfn := h v hv hc
            cases hf : v.framenode with
            | none => rw [hf] at hfn; simp at hfn
            | some fn => simp [hf]
          · have hc' : v.cloud.isSome = false := by simpa using hc
            simp [hc']
      · split <;> rfl
  · have hm' : ¬(st.mapUpdateNecessary = true) := hm
    have hres : updateEnvire st spinv = (true, st) := by
      unfold updateEnvire
      rw [if_pos hm']
    rw [hres]
    exact ⟨rfl, fun _ => rfl, fun h => absurd h hm⟩

/-- Vertex fixture for the C10 counterexample: cloud attached, no frame
node, not handled by the optimizer. -/
def vtxNoFn : Vertex :=
  {defaultVertex with id := 0, cloud := some ⟨[], Pose.id⟩,
                      framenode := none, handled := false}

/-- State fixture for the C10 counterexample. -/
def stC10 : State :=
  {initialState with vertices := [vtxNoFn], mapUpdateNecessary := true}

/-- C10 counterexample: the graph contains no cloud-bearing vertex that is
handled by the optimizer (so the claimed condition "every cloud-bearing
vertex handled by the optimizer has a frame node" holds vacuously and the
claim predicts a true return), yet `updateEnvire` returns false — its
error counter ignores `isHandledByOptimizer` and counts the unhandled
cloud-bearing vertex without a frame node. -/
theorem C10_counterexample_unhandled_vertex :
    (updateEnvire stC10 spinvNone).1 = false ∧
    stC10.vertices.filter (fun v => v.cloud.isSome && v.handled) = [] := by
  refine ⟨by decide, by decide⟩

/-- Witness for the amended C10: with the flag clear, the call is a no-op
returning true. -/
theorem C10_update_envire_contract_witness :
    updateEnvire initialState spinvNone = (true, initialState) :=
  (C10_update_envire_contract initialState spinvNone).2.1 rfl

/-- Source vertex fixture for C4: holds a candidate for vertex 2. -/
def vtxC4s : Vertex :=
  {defaultVertex with id := 0, cloud := some ⟨[], Pose.id⟩,
                      candidates := [(2, ⟨1, 1, false⟩)], handled := true}

/-- Target vertex fixture for C4: holds the symmetric candidate. -/
def vtxC4t : Vertex :=
  {defaultVertex with id := 2, cloud := some ⟨[], Pose.id⟩,
                      candidates := [(0, ⟨1, 1, false⟩)], handled := true}

/-- State fixture for C4: both vertices active with one pending candidate
pair. -/
def stC4 : State :=
  {initialState with vertices := [vtxC4s, vtxC4t], activeVertices := [0, 2],
                     newEdgesAdded := true}

/-- GICP oracle returning a valid measurement. -/
def gicpValidApply : Edge → Bool × Edge :=
  fun e => (true, {e with gicpValid := true})

/-- The C4 failing step: GICP valid, but the solver rejects the edge
insertion (`acceptEdge = false`). -/
def stepC4 : TryStep := tryBestStep stC4 gicpValidApply false

/-- C4: evaluation at the failing input.  The candidate (0, 2) is popped,
GICP reports valid, the solver rejects the insertion (the edge is deleted
and absent from the primary edge set) — yet the loop body still inserts the
(freed) edge into `edges_to_add` and removes the candidate from both
vertices, while counting one test; the claim requires the edge not to be
staged and the candidates to stay untouched in this case (source lines
374-385 run the staging and removal unconditionally after the failed
`addEdge`). -/
theorem C4_reject_still_staged_eval :
    (tryStepState stepC4).edges = stC4.edges ∧
    (tryStepState stepC4).edgesToAdd =
      [⟨0, 2, Pose.id, 1, true, 0⟩] ∧
    (((tryStepState stepC4).findVertex 0).getD defaultVertex).candidates = [] ∧
    (((tryStepState stepC4).findVertex 2).getD defaultVertex).candidates = [] ∧
    tryStepTested stepC4 = true ∧
    vtxC4s.candidates ≠ [] ∧ vtxC4t.candidates ≠ [] := by
  norm_num [stepC4, tryBestStep, stC4, selectSource, vtxC4s, vtxC4t,
    defaultVertex, initialState, State.findVertex, State.modifyVertex,
    missingEdgesError, bestCandidate, gicpValidApply, removeCandidate,
    tryStepState, tryStepTested, lookupCandidate, List.find?, List.foldl,
    List.filter]

theorem findVertex_core_modify (st : State) (j : Int) (f : Vertex → Vertex)
    (hf : ∀ v, (f v).core = v.core) (i : Int) :
    ((st.modifyVertex j f).findVertex i).map Vertex.core =
      (st.findVertex i).map Vertex.core := by
  rw [findVertex_modifyVertex st j f (fun v => congrArg VCore.id (hf v)) i]
  cases h : st.findVertex i with
  | none => rfl
  | some v =>
      simp only [Option.map_some']
      congr 1
      split
      · exact hf v
      · rfl

theorem coreAgree_modify (st : State) (j : Int) (f : Vertex → Vertex)
    (hf : ∀ v, (f v).core = v.core) : coreAgree (st.modifyVertex j f) st :=
  ⟨fun i => findVertex_core_modify st j f hf i, rfl, rfl⟩

theorem addCandTo_core (t' : Int) (d : ℚ) (v : Vertex) :
    (addCandTo t' d v).core = v.core := rfl

theorem addCandTo_id (t' : Int) (d : ℚ) (v : Vertex) :
    (addCandTo t' d v).id = v.id := rfl

theorem recordSearch_id (v : Vertex) : (recordSearch v).id = v.id := rfl

theorem recordSearch_candidates (v : Vertex) :
    (recordSearch v).candidates = v.candidates := rfl

theorem candDistance_modify_other (st : State) (j : Int) (f : Vertex → Vertex)
    (hid : ∀ v, (f v).id = v.id) (i k : Int) (hne : i ≠ j) :
    candDistance (st.modifyVertex j f) i k = candDistance st i k := by
  unfold candDistance
  rw [findVertex_modifyVertex st j f hid i]
  cases h : st.findVertex i with
  | none => rfl
  | some v =>
      have hv : v.id = i := findVertex_some_id st i v h
      simp [hv, hne]

theorem candDistance_modify_keep (st : State) (j : Int) (f : Vertex → Vertex)
    (hid : ∀ v, (f v).id = v.id)
    (hcand : ∀ v, (f v).candidates = v.candidates) (i k : Int) :
    candDistance (st.modifyVertex j f) i k = candDistance st i k := by
  unfold candDistance
  rw [findVertex_modifyVertex st j f hid i]
  cases h : st.findVertex i with
  | none => rfl
  | some v =>
      simp only [Option.map_some', Option.getD_some]
      split
      · rw [hcand]
      · rfl

theorem candDistance_modify_addCandidate_ne (st : State) (j t' : Int) (d : ℚ)
    (k : Int) (hk : k ≠ t') :
    candDistance (st.modifyVertex j (addCandTo t' d)) j k =
      candDistance st j k := by
  unfold candDistance
  rw [findVertex_modifyVertex st j (addCandTo t' d) (addCandTo_id t' d) j]
  cases h : st.findVertex j with
  | none => rfl
  | some v =>
      have hv : v.id = j := findVertex_some_id st j v h
      simp only [Option.map_some', Option.getD_some, hv, eq_self_iff_true,
        if_true]
      show (lookupCandidate (addCandidate v.candidates t' d) k).map _ = _
      rw [lookupCandidate_addCandidate_ne _ _ _ _ hk]

theorem candDistance_modify_addCandidate_self (st : State) (j t' : Int)
    (d : ℚ) (v : Vertex) (h : st.findVertex j = some v) :
    candDistance (st.modifyVertex j (addCandTo t' d)) j t' = some d := by
  unfold candDistance
  rw [findVertex_modifyVertex st j (addCandTo t' d) (addCandTo_id t' d) j]
  rw [h]
  have hv : v.id = j := findVertex_some_id st j v h
  simp only [Option.map_some', Option.getD_some, hv, eq_self_iff_true, if_true]
  show (lookupCandidate (addCandidate v.candidates t' d) t').map _ = _
  rw [lookupCandidate_addCandidate_self]
  rfl

theorem candApply_coreAgree (vid t' : Int) (d : ℚ) (st : State) :
    coreAgree (candApply vid t' d st) st := by
  refine ⟨fun i => ?_, rfl, rfl⟩
  show ((((st.modifyVertex vid (addCandTo t' d)).modifyVertex t'
      (addCandTo vid d)).findVertex i).map Vertex.core) =
    (st.findVertex i).map Vertex.core
  exact (findVertex_core_modify (st.modifyVertex vid (addCandTo t' d)) t'
      (addCandTo vid d) (addCandTo_core vid d) i).trans
    (findVertex_core_modify st vid (addCandTo t' d) (addCandTo_core t' d) i)

theorem candApply_newEdgesAdded (vid t' : Int) (d : ℚ) (st : State) :
    (candApply vid t' d st).newEdgesAdded = true := rfl

theorem candApply_candDistance_src (vid t' : Int) (d : ℚ) (st : State)
    (v : Vertex) (h : st.findVertex vid = some v) (hne : vid ≠ t') :
    candDistance (candApply vid t' d st) vid t' = some d := by
  have h1 : candDistance ((st.modifyVertex vid (addCandTo t' d)).modifyVertex
      t' (addCandTo vid d)) vid t' =
      candDistance (st.modifyVertex vid (addCandTo t' d)) vid t' :=
    candDistance_modify_other (st.modifyVertex vid (addCandTo t' d)) t'
      (addCandTo vid d) (addCandTo_id vid d) vid t' hne
  exact h1.trans (candDistance_modify_addCandidate_self st vid t' d v h)

theorem candApply_candDistance_tgt (vid t' : Int) (d : ℚ) (st : State)
    (v : Vertex) (h : st.findVertex t' = some v) (hne : vid ≠ t') :
    candDistance (candApply vid t' d st) t' vid = some d := by
  have hx : (st.modifyVertex vid (addCandTo t' d)).findVertex t' = some v := by
    rw [findVertex_modifyVertex st vid (addCandTo t' d) (addCandTo_id t' d) t',
      h]
    have hv : v.id = t' := findVertex_some_id st t' v h
    rw [Option.map_some']
    rw [hv, if_neg (fun he => hne he.symm)]
  exact candDistance_modify_addCandidate_self
    (st.modifyVertex vid (addCandTo t' d)) t' vid d v hx

theorem candApply_candDistance_src_ne (vid t' : Int) (d : ℚ) (st : State)
    (k : Int) (hk : k ≠ t') (hvt : vid ≠ t') :
    candDistance (candApply vid t' d st) vid k = candDistance st vid k := by
  have h1 : candDistance (candApply vid t' d st) vid k =
      candDistance (st.modifyVertex vid (addCandTo t' d)) vid k :=
    candDistance_modify_other (st.modifyVertex vid (addCandTo t' d)) t'
      (addCandTo vid d) (addCandTo_id vid d) vid k hvt
  exact h1.trans (candDistance_modify_addCandidate_ne st vid t' d k hk)

theorem candApply_candDistance_other (vid t' : Int) (d : ℚ) (st : State)
    (i k : Int) (hi1 : i ≠ vid) (hi2 : i ≠ t') :
    candDistance (candApply vid t' d st) i k = candDistance st i k := by
  have h1 : candDistance (candApply vid t' d st) i k =
      candDistance (st.modifyVertex vid (addCandTo t' d)) i k :=
    candDistance_modify_other (st.modifyVertex vid (addCandTo t' d)) t'
      (addCandTo vid d) (addCandTo_id vid d) i k hi2
  exact h1.trans (candDistance_modify_other st vid (addCandTo t' d)
    (addCandTo_id t' d) i k hi1)

theorem candDistValue_eq_min (mahal : Vec3 → Mat3 → Vec3 → ℚ)
    (enorm : Vec3 → ℚ) (srcCov tgtCov : Mat6) (sPose tPose : Pose) :
    candDistValue mahal enorm srcCov tgtCov sPose tPose =
      min (mahal sPose.trans (topLeft3 srcCov + topLeft3 tgtCov) tPose.trans)
          (enorm (tPose.trans - sPose.trans)) := by
  unfold candDistValue
  by_cases hgt : mahal sPose.trans (topLeft3 srcCov + topLeft3 tgtCov)
      tPose.trans > enorm (tPose.trans - sPose.trans)
  · rw [if_pos hgt, min_eq_right (le_of_lt hgt)]
  · rw [if_neg hgt, min_eq_left (not_lt.mp hgt)]

theorem getVertexCovariance_core_eq {a b : Vertex} (h : a.core = b.core)
    (spinv : Int → Option Mat6) :
    getVertexCovariance a spinv = getVertexCovariance b spinv := by
  unfold getVertexCovariance
  rw [show a.handled = b.handled from congrArg VCore.handled h,
      show a.hessianIndex = b.hessianIndex from congrArg VCore.hessianIndex h]

theorem candStep_coreAgree (vid : Int) (srcCov : Mat6)
    (spinv : Int → Option Mat6) (mahal : Vec3 → Mat3 → Vec3 → ℚ)
    (enorm : Vec3 → ℚ) (st : State) (tid : Int) :
    coreAgree (candStep vid srcCov spinv mahal enorm st tid) st := by
  cases hf : st.findVertex tid with
  | none =>
      simp only [candStep, hf]
      exact coreAgree_refl st
  | some tv =>
      simp only [candStep, hf]
      by_cases h1 : tv.cloud.isSome = true ∧ (vid < tv.id - 1 ∨ vid > tv.id + 1)
      · rw [if_pos h1]
        by_cases h2 : (st.edges.filter fun e => connects e vid tv.id).length = 0
        · rw [if_pos h2]
          cases hcov : getVertexCovariance tv spinv with
          | none => exact coreAgree_refl st
          | some tgtCov =>
              simp only []
              by_cases h3 : candDistValue mahal enorm srcCov tgtCov
                  (((st.findVertex vid).getD defaultVertex).estimate)
                  tv.estimate ≤ st.gicpMaxSensorDistance
              · rw [if_pos h3]
                exact candApply_coreAgree _ _ _ _
              · rw [if_neg h3]
                exact coreAgree_refl st
        · rw [if_neg h2]
          exact coreAgree_refl st
      · rw [if_neg h1]
        exact coreAgree_refl st

theorem candStep_flag_mono (vid : Int) (srcCov : Mat6)
    (spinv : Int → Option Mat6) (mahal : Vec3 → Mat3 → Vec3 → ℚ)
    (enorm : Vec3 → ℚ) (st : State) (tid : Int)
    (hm : st.newEdgesAdded = true) :
    (candStep vid srcCov spinv mahal enorm st tid).newEdgesAdded = true := by
  cases hf : st.findVertex tid with
  | none =>
      simp only [candStep, hf]
      exact hm
  | some tv =>
      simp only [candStep, hf]
      by_cases h1 : tv.cloud.isSome = true ∧ (vid < tv.id - 1 ∨ vid > tv.id + 1)
      · rw [if_pos h1]
        by_cases h2 : (st.edges.filter fun e => connects e vid tv.id).length = 0
        · rw [if_pos h2]
          cases hcov : getVertexCovariance tv spinv with
          | none => exact hm
          | some tgtCov =>
              simp only []
              by_cases h3 : candDistValue mahal enorm srcCov tgtCov
                  (((st.findVertex vid).getD defaultVertex).estimate)
                  tv.estimate ≤ st.gicpMaxSensorDistance
              · rw [if_pos h3]
                exact candApply_newEdgesAdded _ _ _ _
              · rw [if_neg h3]
                exact hm
        · rw [if_neg h2]
          exact hm
      · rw [if_neg h1]
        exact hm

theorem candStep_candDistance_pres (vid : Int) (srcCov : Mat6)
    (spinv : Int → Option Mat6) (mahal : Vec3 → Mat3 → Vec3 → ℚ)
    (enorm : Vec3 → ℚ) (st : State) (tid tid' : Int)
    (h : tid' ≠ tid) (hvt : vid ≠ tid) :
    candDistance (candStep vid srcCov spinv mahal enorm st tid') vid tid =
        candDistance st vid tid ∧
      candDistance (candStep vid srcCov spinv mahal enorm st tid') tid vid =
        candDistance st tid vid := by
  cases hf : st.findVertex tid' with
  | none =>
      simp only [candStep, hf]
      constructor <;> trivial
  | some tv =>
      have htv : tv.id = tid' := findVertex_some_id st tid' tv hf
      simp only [candStep, hf]
      by_cases h1 : tv.cloud.isSome = true ∧ (vid < tv.id - 1 ∨ vid > tv.id + 1)
      · rw [if_pos h1]
        have hvtv : vid ≠ tv.id := by
          rcases h1.2 with hlt | hgt <;> omega
        have htne : tid ≠ tv.id := by omega
        by_cases h2 : (st.edges.filter fun e => connects e vid tv.id).length = 0
        · rw [if_pos h2]
          cases hcov : getVertexCovariance tv spinv with
          | none => constructor <;> trivial
          | some tgtCov =>
              simp only []
              by_cases h3 : candDistValue mahal enorm srcCov tgtCov
                  (((st.findVertex vid).getD defaultVertex).estimate)
                  tv.estimate ≤ st.gicpMaxSensorDistance
              · rw [if_pos h3]
                exact ⟨candApply_candDistance_src_ne vid tv.id _ st tid htne
                    hvtv,
                  candApply_candDistance_other vid tv.id _ st tid vid
                    (fun he => hvt he.symm) htne⟩
              · rw [if_neg h3]
                constructor <;> trivial
        · rw [if_neg h2]
          constructor <;> trivial
      · rw [if_neg h1]
        constructor <;> trivial

theorem foldl_candStep_coreAgree (vid : Int) (srcCov : Mat6)
    (spinv : Int → Option Mat6) (mahal : Vec3 → Mat3 → Vec3 → ℚ)
    (enorm : Vec3 → ℚ) (L : List Int) (acc : State) :
    coreAgree (L.foldl (candStep vid srcCov spinv mahal enorm) acc) acc := by
  induction L generalizing acc with
  | nil => exact coreAgree_refl acc
  | cons t L ih =>
      rw [List.foldl_cons]
      exact coreAgree_trans (ih _)
        (candStep_coreAgree vid srcCov spinv mahal enorm acc t)

theorem foldl_candStep_pres (vid : Int) (srcCov : Mat6)
    (spinv : Int → Option Mat6) (mahal : Vec3 → Mat3 → Vec3 → ℚ)
    (enorm : Vec3 → ℚ) (L : List Int) (tid : Int)
    (hL : tid ∉ L) (hvt : vid ≠ tid) (acc : State) :
    candDistance (L.foldl (candStep vid srcCov spinv mahal enorm) acc) vid tid =
        candDistance acc vid tid ∧
      candDistance (L.foldl (candStep vid srcCov spinv mahal enorm) acc) tid vid =
        candDistance acc tid vid := by
  induction L generalizing acc with
  | nil => exact ⟨rfl, rfl⟩
  | cons t L ih =>
      rw [List.foldl_cons]
      have hmem : ¬(tid = t ∨ tid ∈ L) := by
        simpa [List.mem_cons] using hL
      have ht : t ≠ tid := fun he => hmem (Or.inl he.symm)
      have hLt : tid ∉ L := fun hin => hmem (Or.inr hin)
      obtain ⟨p1, p2⟩ := candStep_candDistance_pres vid srcCov spinv mahal
        enorm acc tid t ht hvt
      obtain ⟨g1, g2⟩ := ih hLt (candStep vid srcCov spinv mahal enorm acc t)
      exact ⟨g1.trans p1, g2.trans p2⟩

theorem foldl_candStep_flag (vid : Int) (srcCov : Mat6)
    (spinv : Int → Option Mat6) (mahal : Vec3 → Mat3 → Vec3 → ℚ)
    (enorm : Vec3 → ℚ) (L : List Int) (acc : State)
    (hm : acc.newEdgesAdded = true) :
    (L.foldl (candStep vid srcCov spinv mahal enorm) acc).newEdgesAdded =
      true := by
  induction L generalizing acc with
  | nil => exact hm
  | cons t L ih =>
      rw [List.foldl_cons]
      exact ih _ (candStep_flag_mono vid srcCov spinv mahal enorm acc t hm)

theorem candStep_action (vid : Int) (srcCov : Mat6)
    (spinv : Int → Option Mat6) (mahal : Vec3 → Mat3 → Vec3 → ℚ)
    (enorm : Vec3 → ℚ) (acc : State) (tid : Int) (sv tv : Vertex)
    (tgtCov : Mat6)
    (hsv : acc.findVertex vid = some sv)
    (ht : acc.findVertex tid = some tv)
    (hc : tv.cloud.isSome = true)
    (hdist : vid < tv.id - 1 ∨ vid > tv.id + 1)
    (hnoe : (acc.edges.filter fun e => connects e vid tv.id).length = 0)
    (hcov : getVertexCovariance tv spinv = some tgtCov)
    (hvne : vid ≠ tid) :
    (candDistValue mahal enorm srcCov tgtCov sv.estimate tv.estimate ≤
        acc.gicpMaxSensorDistance →
      candDistance (candStep vid srcCov spinv mahal enorm acc tid) vid tid =
          some (candDistValue mahal enorm srcCov tgtCov sv.estimate
            tv.estimate) ∧
        candDistance (candStep vid srcCov spinv mahal enorm acc tid) tid vid =
          some (candDistValue mahal enorm srcCov tgtCov sv.estimate
            tv.estimate) ∧
        (candStep vid srcCov spinv mahal enorm acc tid).newEdgesAdded =
          true) ∧
    (¬(candDistValue mahal enorm srcCov tgtCov sv.estimate tv.estimate ≤
        acc.gicpMaxSensorDistance) →
      candStep vid srcCov spinv mahal enorm acc tid = acc) := by
  have htvid : tv.id = tid := findVertex_some_id acc tid tv ht
  simp only [candStep, ht, hcov, hsv, Option.getD_some]
  rw [if_pos ⟨hc, hdist⟩, if_pos hnoe]
  constructor
  · intro hle
    rw [if_pos hle]
    rw [htvid]
    exact ⟨candApply_candDistance_src vid tid _ acc sv hsv hvne,
      candApply_candDistance_tgt vid tid _ acc tv ht hvne,
      candApply_newEdgesAdded _ _ _ _⟩
  · intro hnle
    rw [if_neg hnle]

/-- C3: in `findEdgeCandidates(vertex_id, spinv)`, for the source vertex
`s` (whose edge-search state has not run) and any other active
cloud-bearing vertex `t` with `|id(s) − id(t)| ≥ 2`, no existing edge
between them, and both marginal covariances available, the candidate
distance is `d = min(mahalanobis(pₛ, Sₛ[0:3,0:3] + Sₜ[0:3,0:3], pₜ),
‖pₜ − pₛ‖)` (the external distance functions are oracles, applied exactly
as the source applies them), and exactly when `d ≤ gicp.max_sensor_distance`
a candidate with distance `d` is recorded on both `s` and `t` and the
global `new_edges_added` flag is set; when `d` exceeds the threshold both
candidate entries for the pair are left unchanged. -/
theorem C3_find_edge_candidates (st : State) (spinv : Int → Option Mat6)
    (mahal : Vec3 → Mat3 → Vec3 → ℚ) (enorm : Vec3 → ℚ)
    (vid tid : Int) (sv tv : Vertex) (srcC tgtC : Mat6) (L1 L2 : List Int)
    (hsv : st.findVertex vid = some sv)
    (hsc : sv.cloud.isSome = true)
    (_hrun : sv.searchHasRun = false)
    (hscov : getVertexCovariance sv spinv = some srcC)
    (htv : st.findVertex tid = some tv)
    (htc : tv.cloud.isSome = true)
    (htcov : getVertexCovariance tv spinv = some tgtC)
    (hact : st.activeVertices = L1 ++ tid :: L2)
    (hn1 : tid ∉ L1) (hn2 : tid ∉ L2)
    (hfar : 2 ≤ |vid - tid|)
    (hnoe : ∀ e ∈ st.edges, connects e vid tid = false) :
    (min (mahal sv.estimate.trans (topLeft3 srcC + topLeft3 tgtC)
          tv.estimate.trans)
        (enorm (tv.estimate.trans - sv.estimate.trans)) ≤
        st.gicpMaxSensorDistance →
      candDistance (findEdgeCandidatesAt st vid spinv mahal enorm) vid tid =
          some (min (mahal sv.estimate.trans (topLeft3 srcC + topLeft3 tgtC)
              tv.estimate.trans)
            (enorm (tv.estimate.trans - sv.estimate.trans))) ∧
        candDistance (findEdgeCandidatesAt st vid spinv mahal enorm) tid vid =
          some (min (mahal sv.estimate.trans (topLeft3 srcC + topLeft3 tgtC)
              tv.estimate.trans)
            (enorm (tv.estimate.trans - sv.estimate.trans))) ∧
        (findEdgeCandidatesAt st vid spinv mahal enorm).newEdgesAdded =
          true) ∧
    (¬(min (mahal sv.estimate.trans (topLeft3 srcC + topLeft3 tgtC)
          tv.estimate.trans)
        (enorm (tv.estimate.trans - sv.estimate.trans)) ≤
        st.gicpMaxSensorDistance) →
      candDistance (findEdgeCandidatesAt st vid spinv mahal enorm) vid tid =
          candDistance st vid tid ∧
        candDistance (findEdgeCandidatesAt st vid spinv mahal enorm) tid vid =
          candDistance st tid vid) := by
  have htvid : tv.id = tid := findVertex_some_id st tid tv htv
  have hvt : vid ≠ tid := by
    rcases abs_cases (vid - tid) with ⟨he, _⟩ | ⟨he, _⟩ <;> rw [he] at hfar <;>
      omega
  have hdist0 : vid < tid - 1 ∨ vid > tid + 1 := by
    rcases abs_cases (vid - tid) with ⟨he, _⟩ | ⟨he, _⟩ <;> rw [he] at hfar
    · right
      omega
    · left
      omega
  have hred : findEdgeCandidatesAt st vid spinv mahal enorm =
      (L2.foldl (candStep vid srcC spinv mahal enorm)
        (candStep vid srcC spinv mahal enorm
          (L1.foldl (candStep vid srcC spinv mahal enorm) st) tid)).modifyVertex
        vid recordSearch := by
    simp only [findEdgeCandidatesAt, hsv, hscov]
    rw [if_pos hsc]
    rw [hact, List.foldl_append, List.foldl_cons]
  rw [hred]
  have hcA := foldl_candStep_coreAgree vid srcC spinv mahal enorm L1 st
  obtain ⟨sv', hsv', hsvcore⟩ :
      ∃ sv', (L1.foldl (candStep vid srcC spinv mahal enorm) st).findVertex
          vid = some sv' ∧ sv'.core = sv.core := by
    have h0 := hcA.1 vid
    rw [hsv] at h0
    exact Option.map_eq_some'.mp h0
  obtain ⟨tv', htv', htvcore⟩ :
      ∃ tv', (L1.foldl (candStep vid srcC spinv mahal enorm) st).findVertex
          tid = some tv' ∧ tv'.core = tv.core := by
    have h0 := hcA.1 tid
    rw [htv] at h0
    exact Option.map_eq_some'.mp h0
  have hsest : sv'.estimate = sv.estimate := congrArg VCore.estimate hsvcore
  have htest : tv'.estimate = tv.estimate := congrArg VCore.estimate htvcore
  have htid' : tv'.id = tv.id := congrArg VCore.id htvcore
  have hc' : tv'.cloud.isSome = true := by
    rw [show tv'.cloud = tv.cloud from congrArg VCore.cloud htvcore]
    exact htc
  have hdist' : vid < tv'.id - 1 ∨ vid > tv'.id + 1 := by
    rw [htid', htvid]
    exact hdist0
  have hnoe' : ((L1.foldl (candStep vid srcC spinv mahal enorm)
      st).edges.filter fun e => connects e vid tv'.id).length = 0 := by
    rw [hcA.2.1, htid', htvid]
    rw [List.filter_eq_nil_iff.mpr fun e he => by rw [hnoe e he]; exact
      Bool.false_ne_true]
    rfl
  have hcov' : getVertexCovariance tv' spinv = some tgtC :=
    (getVertexCovariance_core_eq htvcore spinv).trans htcov
  have Hact := candStep_action vid srcC spinv mahal enorm
    (L1.foldl (candStep vid srcC spinv mahal enorm) st) tid sv' tv' tgtC
    hsv' htv' hc' hdist' hnoe' hcov' hvt
  have hd : candDistValue mahal enorm srcC tgtC sv'.estimate tv'.estimate =
      min (mahal sv.estimate.trans (topLeft3 srcC + topLeft3 tgtC)
          tv.estimate.trans)
        (enorm (tv.estimate.trans - sv.estimate.trans)) := by
    rw [hsest, htest, candDistValue_eq_min]
  have hmax : (L1.foldl (candStep vid srcC spinv mahal enorm)
      st).gicpMaxSensorDistance = st.gicpMaxSensorDistance := hcA.2.2
  constructor
  · intro hle
    have hle' : candDistValue mahal enorm srcC tgtC sv'.estimate
        tv'.estimate ≤ (L1.foldl (candStep vid srcC spinv mahal enorm)
          st).gicpMaxSensorDistance := by
      rw [hd, hmax]
      exact hle
    obtain ⟨ha1, ha2, ha3⟩ := Hact.1 hle'
    have hp := foldl_candStep_pres vid srcC spinv mahal enorm L2 tid hn2 hvt
      (candStep vid srcC spinv mahal enorm
        (L1.foldl (candStep vid srcC spinv mahal enorm) st) tid)
    refine ⟨?_, ?_, ?_⟩
    · rw [candDistance_modify_keep _ vid recordSearch recordSearch_id
        recordSearch_candidates vid tid, hp.1, ha1, hd]
    · rw [candDistance_modify_keep _ vid recordSearch recordSearch_id
        recordSearch_candidates tid vid, hp.2, ha2, hd]
    · rw [modifyVertex_newEdges]
      exact foldl_candStep_flag vid srcC spinv mahal enorm L2 _ ha3
  · intro hnle
    have hnle' : ¬(candDistValue mahal enorm srcC tgtC sv'.estimate
        tv'.estimate ≤ (L1.foldl (candStep vid srcC spinv mahal enorm)
          st).gicpMaxSensorDistance) := by
      rw [hd, hmax]
      exact hnle
    have hstep := Hact.2 hnle'
    have hp := foldl_candStep_pres vid srcC spinv mahal enorm L2 tid hn2 hvt
      (candStep vid srcC spinv mahal enorm
        (L1.foldl (candStep vid srcC spinv mahal enorm) st) tid)
    have hq := foldl_candStep_pres vid srcC spinv mahal enorm L1 tid hn1 hvt
      st
    refine ⟨?_, ?_⟩
    · rw [candDistance_modify_keep _ vid recordSearch recordSearch_id
        recordSearch_candidates vid tid, hp.1, hstep]
      exact hq.1
    · rw [candDistance_modify_keep _ vid recordSearch recordSearch_id
        recordSearch_candidates tid vid, hp.2, hstep]
      exact hq.2

/-- Source vertex fixture for the C3 witness. -/
def svC3 : Vertex :=
  {defaultVertex with id := 0, cloud := some ⟨[], Pose.id⟩, handled := true,
                      hessianIndex := 0}

/-- Target vertex fixture for the C3 witness (id distance 5 ≥ 2). -/
def tvC3 : Vertex :=
  {defaultVertex with id := 5, cloud := some ⟨[], Pose.id⟩, handled := true,
                      hessianIndex := 1}

/-- State fixture for the C3 witness. -/
def stC3 : State :=
  {initialState with vertices := [svC3, tvC3], activeVertices := [5],
                     gicpMaxSensorDistance := 2}

/-- Marginals oracle returning the identity block for every index. -/
def spinvOne : Int → Option Mat6 := fun _ => some 1

/-- Constant Mahalanobis-distance oracle used in the witness. -/
def mahalW : Vec3 → Mat3 → Vec3 → ℚ := fun _ _ _ => 3

/-- Constant Euclidean-norm oracle used in the witness. -/
def enormW : Vec3 → ℚ := fun _ => 2

/-- Witness for C3: with Mahalanobis distance 3, Euclidean distance 2 and a
sensor gate of 2, the candidate (distance min 3 2 = 2) is recorded on both
vertices and the flag is raised. -/
theorem C3_find_edge_candidates_witness :
    candDistance (findEdgeCandidatesAt stC3 0 spinvOne mahalW enormW) 0 5 =
      some (min (mahalW svC3.estimate.trans (topLeft3 1 + topLeft3 1)
          tvC3.estimate.trans)
        (enormW (tvC3.estimate.trans - svC3.estimate.trans))) ∧
    candDistance (findEdgeCandidatesAt stC3 0 spinvOne mahalW enormW) 5 0 =
      some (min (mahalW svC3.estimate.trans (topLeft3 1 + topLeft3 1)
          tvC3.estimate.trans)
        (enormW (tvC3.estimate.trans - svC3.estimate.trans))) ∧
    (findEdgeCandidatesAt stC3 0 spinvOne mahalW enormW).newEdgesAdded =
      true :=
  (C3_find_edge_candidates stC3 spinvOne mahalW enormW 0 5 svC3 tvC3 1 1 []
    [] (by decide) (by decide) (by decide) (by decide) (by decide)
    (by decide) (by decide) rfl (by decide) (by decide) (by decide)
    (by decide)).1 (by decide)

end GraphSlam
